import Mathlib

/-!
Verification of the chatbot-backend repository (four near-duplicate Express
services: two variants concatenated in index.js, here V1 and V2, and the two
unnamed source files, here P0 for part_000 and P1 for part_001).

The JavaScript is embedded shallowly: every request handler becomes a pure
Lean function from the request body and a record of upstream oracles (the
generative-model calls and the catalog search, which are external HTTP
services) to the HTTP response together with the ordered trace of outbound
calls it performs.  JavaScript strings are Lean strings manipulated through
explicit character lists; JS truthiness on the relevant value shapes is made
explicit through the jsTruthy/jsOr helpers; absent-or-null JSON fields are
Option.
-/

/-! ## JavaScript string primitives (character-list based, kernel-reducible) -/

/-- pat occurs at the very start of the character list (JS startsWith). -/
def charPre : List Char → List Char → Bool
  | [], _ => true
  | _ :: _, [] => false
  | p :: ps, c :: cs => p == c && charPre ps cs

/-- pat occurs somewhere inside s (JS String.prototype.includes). -/
def charsHasSub (pat : List Char) : List Char → Bool
  | [] => pat.isEmpty
  | c :: cs => charPre pat (c :: cs) || charsHasSub pat cs

/-- s.includes(pat) of JavaScript. -/
def jsIncludes (s pat : String) : Bool :=
  charsHasSub pat.toList s.toList

/-- Replace the first occurrence of pat by rep (JS String.prototype.replace
with a string pattern). -/
def charsReplaceFirst (pat rep : List Char) : List Char → List Char
  | [] => if pat.isEmpty then rep else []
  | c :: cs =>
    if charPre pat (c :: cs) then rep ++ (c :: cs).drop pat.length
    else c :: charsReplaceFirst pat rep cs

/-- s.replace(pat, rep) of JavaScript (first occurrence only). -/
def strReplaceFirst (s pat rep : String) : String :=
  (charsReplaceFirst pat.toList rep.toList s.toList).asString

/-- s.toLowerCase() (ASCII-adequate, character-wise). -/
def strLower (s : String) : String :=
  (s.toList.map Char.toLower).asString

/-- Characters stripped by JS String.prototype.trim (the ones that occur in
this codebase inputs). -/
def jsWhitespace (c : Char) : Bool :=
  c == ' ' || c == '\t' || c == '\n' || c == '\r'

/-- s.trim() of JavaScript. -/
def strTrim (s : String) : String :=
  (((s.toList.dropWhile jsWhitespace).reverse.dropWhile jsWhitespace).reverse).asString

/-- s.substring(0, n) of JavaScript. -/
def strTake (s : String) (n : Nat) : String :=
  (s.toList.take n).asString

/-! ## JavaScript truthiness and defaulting on the value shapes used here -/

/-- Truthiness of a possibly-absent string: undefined/null and "" are falsy. -/
def truthyStrOpt : Option String → Bool
  | none => false
  | some s => !(s == "")

/-- Truthiness of a possibly-absent number (page counts): absent and 0 falsy. -/
def truthyNatOpt : Option Nat → Bool
  | none => false
  | some n => !(n == 0)

/-- Truthiness of a possibly-absent numeric rating: absent and 0 falsy. -/
def truthyRatOpt : Option ℚ → Bool
  | none => false
  | some q => !(q == 0)

/-- v || d for a possibly-absent string v (JS: "" is also replaced by d). -/
def jsOrStr (v : Option String) (d : String) : String :=
  match v with
  | some s => if s == "" then d else s
  | none => d

/-- Template-literal interpolation of a possibly-null string: null prints as
the four characters "null". -/
def tmplStr : Option String → String
  | some s => s
  | none => "null"

/-- a || b || ... chain over possibly-absent strings: first truthy value. -/
def firstTruthyStr : List (Option String) → Option String
  | [] => none
  | some s :: vs => if s == "" then firstTruthyStr vs else some s
  | none :: vs => firstTruthyStr vs

/-- x ??= y of JavaScript, as a value: keep x when non-nullish, else y. -/
def fillIfNull {α : Type} (x y : Option α) : Option α :=
  match x with
  | some v => some v
  | none => y

/-- JS (v || 0) for a possibly-absent rating. -/
def ratOrZero : Option ℚ → ℚ
  | some q => q
  | none => 0

/-- JS (v || 0) for a possibly-absent count. -/
def natOrZero : Option Nat → Nat
  | some n => n
  | none => 0

/-- xs?.join(sep) || d of JavaScript (absent array, or empty join, give d). -/
def joinedOrStr (xs : Option (List String)) (sep d : String) : String :=
  match xs with
  | none => d
  | some l => let j := String.intercalate sep l; if j == "" then d else j

/-- Render an optional page count the way a JS template literal with || does. -/
def natOrDflt (v : Option Nat) (d : String) : String :=
  match v with
  | some n => if n == 0 then d else toString n
  | none => d

/-- Render an optional rating the way a JS template literal with || does. -/
def ratOrDflt (v : Option ℚ) (d : String) : String :=
  match v with
  | some q => if q == 0 then d else toString q
  | none => d

/-- info.description?.substring(0, n) || fallback. -/
def descSnip (d : Option String) (n : Nat) (fallback : String) : String :=
  match d with
  | none => fallback
  | some s => let t := strTake s n; if t == "" then fallback else t

/-- map with the element index, mirroring JS Array.prototype.map((x, i) => ...). -/
def mapWithIndex {α β : Type} (f : Nat → α → β) : Nat → List α → List β
  | _, [] => []
  | i, a :: as => f i a :: mapWithIndex f (i + 1) as

/-! ## Data model shared by the four service variants -/

/-- Google Books volumeInfo.imageLinks. -/
structure ImageLinks where
  smallThumbnail : Option String
  thumbnail : Option String
  medium : Option String
  large : Option String
  extraLarge : Option String

/-- Google Books saleInfo (only buyLink is read, by P1). -/
structure SaleInfo where
  buyLink : Option String

/-- Google Books volumeInfo, restricted to the fields the services read.
The handlers dereference title without a guard, so it is total here. -/
structure VolumeInfo where
  title : String
  authors : Option (List String)
  description : Option String
  categories : Option (List String)
  pageCount : Option Nat
  publishedDate : Option String
  averageRating : Option ℚ
  ratingsCount : Option Nat
  imageLinks : Option ImageLinks
  previewLink : Option String

/-- One raw catalog record. -/
structure Book where
  volumeInfo : VolumeInfo
  saleInfo : Option SaleInfo

/-- The preferences object of the Analysis JSON.  The schema varies slightly
across the variants; this is the union of the fields that occur, each
optional, and the handlers only pass the object through or read single
fields from it. -/
structure Prefs where
  pacing : Option String
  ending : Option String
  complexity : Option String
  dealbreakers : List String
  publicationEra : Option String
  booktokVibe : Option Bool
  publication : Option String

/-- The parsed JSON produced by the preference-extraction model call. -/
structure Analysis where
  hasBasicInfo : Bool
  genre : Option String
  mood : Option String
  topic : Option String
  needsInvestigation : Bool
  investigationCategory : Option String
  investigationQuestion : Option String
  preferences : Prefs
  readyToRecommend : Bool
  missingBasicInfo : List String
  question : Option String
  searchQuery : Option String

/-- The parsed JSON produced by the recommendation-selection model call,
plus the enrichment fields the handler may add afterwards (absent until
assigned). -/
structure Rec where
  title : String
  author : String
  description : String
  reasoning : String
  pageCount : Option Nat
  publishedDate : Option String
  rating : Option ℚ
  imageUrl : Option String
  previewLink : Option String
  buyLink : Option String

/-- One client-supplied conversation turn.  P0 additionally reads type,
recommendation and analysis off bot turns. -/
structure Turn where
  isUser : Bool
  text : String
  type : Option String
  recommendation : Option Rec
  analysis : Option Analysis

/-- The POST /api/chat request body.  extraBody stands for any further
properties the client may include; no handler reads them. -/
structure ChatRequest where
  message : Option String
  conversationHistory : Option (List Turn)
  extraBody : List (String × String)

/-- The process-wide configuration read at startup (API keys).  It is the
only cross-request server state; the handlers never write it. -/
structure ServerState where
  geminiApiKey : Option String
  googleBooksApiKey : Option String

/-- The subset of Analysis echoed back inside a response; each variant and
branch selects a different subset of fields (none = field not present). -/
structure EchoFields where
  hasBasicInfo : Option Bool
  needsInvestigation : Option Bool
  investigationCategory : Option (Option String)
  genre : Option (Option String)
  mood : Option (Option String)
  topic : Option (Option String)
  preferences : Option Prefs
  missingBasicInfo : Option (List String)
  publication : Option (Option String)

/-- The analysis payload of a response: either a selected subset of fields
or the whole Analysis object (V2 and P1 echo the full object on no-results,
P0 echoes the full previous analysis on an "another" recommendation). -/
inductive Echo
  | fields (e : EchoFields)
  | full (a : Analysis)

/-- An HTTP response of the endpoint: a non-2xx error body, or a 200 JSON
body carrying its "type" tag, optional message, optional recommendation and
optional echoed analysis. -/
inductive Resp
  | err (status : Nat) (error : String)
  | json (rtype : String) (message : Option String) (recommendation : Option Rec)
         (analysis : Option Echo)

/-- One outbound HTTP call: to the generative model or to the catalog API. -/
inductive Call
  | gemini
  | books

/-- The "type" tag of a 200 response, if any. -/
def respType : Resp → Option String
  | Resp.err _ _ => none
  | Resp.json t _ _ _ => some t

/-- The recommendation payload of a response, if any. -/
def respRec : Resp → Option Rec
  | Resp.json _ _ r _ => r
  | Resp.err _ _ => none

/-- Transcript line for one prior turn. -/
def transcriptLine (m : Turn) : String :=
  (if m.isUser then "User" else "Assistant") ++ ": " ++ m.text

/-- The flattened conversation fed to the extraction prompt. -/
def fullConversation (history : List Turn) (message : String) : String :=
  String.intercalate "\n" (history.map transcriptLine ++ ["User: " ++ message])

/-- The conversation a request gives rise to (history defaulting to []). -/
def reqConversation (req : ChatRequest) : String :=
  fullConversation (req.conversationHistory.getD []) (req.message.getD "")

/-- Echo with hasBasicInfo, needsInvestigation, investigationCategory,
genre, mood, topic, preferences, missingBasicInfo (the question branch of
V1 and V2). -/
def questionEchoFull (a : Analysis) : Echo :=
  Echo.fields
    { hasBasicInfo := some a.hasBasicInfo
      needsInvestigation := some a.needsInvestigation
      investigationCategory := some a.investigationCategory
      genre := some a.genre
      mood := some a.mood
      topic := some a.topic
      preferences := some a.preferences
      missingBasicInfo := some a.missingBasicInfo
      publication := none }

/-- Echo with hasBasicInfo, genre, mood, topic, preferences,
missingBasicInfo (the question branch of P0 and P1). -/
def questionEchoShort (a : Analysis) : Echo :=
  Echo.fields
    { hasBasicInfo := some a.hasBasicInfo
      needsInvestigation := none
      investigationCategory := none
      genre := some a.genre
      mood := some a.mood
      topic := some a.topic
      preferences := some a.preferences
      missingBasicInfo := some a.missingBasicInfo
      publication := none }

/-- Echo with genre, mood, topic, preferences (V1, V2 and P0 on success and
on the V1 no-results branch). -/
def gmtpEcho (a : Analysis) : Echo :=
  Echo.fields
    { hasBasicInfo := none
      needsInvestigation := none
      investigationCategory := none
      genre := some a.genre
      mood := some a.mood
      topic := some a.topic
      preferences := some a.preferences
      missingBasicInfo := none
      publication := none }

/-- Echo with genre, mood, topic, publication (P1 on success). -/
def gmtPubEcho (a : Analysis) : Echo :=
  Echo.fields
    { hasBasicInfo := none
      needsInvestigation := none
      investigationCategory := none
      genre := some a.genre
      mood := some a.mood
      topic := some a.topic
      preferences := none
      missingBasicInfo := none
      publication := some a.preferences.publication }

/-! ## V1: the first service in index.js (investigative variant) -/

namespace V1

/-- Fiction keyword allow-list of V1 filterNovelsOnly. -/
def fictionKeywords : List String :=
  ["fiction", "novel", "romance", "mystery", "thriller", "fantasy",
   "science fiction", "horror", "adventure"]

/-- Non-fiction keyword block-list of V1 filterNovelsOnly. -/
def nonFictionKeywords : List String :=
  ["non-fiction", "biography", "self-help", "textbook", "history"]

/-- The joined, lower-cased category text of a record. -/
def catText (book : Book) : String :=
  strLower (String.intercalate " " (book.volumeInfo.categories.getD []))

/-- The per-record predicate of V1 filterNovelsOnly. -/
def keepBook (book : Book) : Bool :=
  fictionKeywords.any (fun k => jsIncludes (catText book) k) &&
  !(nonFictionKeywords.any (fun k => jsIncludes (catText book) k))

/-- filterNovelsOnly of V1. -/
def filterNovelsOnly (books : List Book) : List Book :=
  books.filter keepBook

/-- One candidate summary of V1 formatBooksForGemini. -/
def formatBook (index : Nat) (book : Book) : String :=
  let info := book.volumeInfo
  "Book " ++ toString (index + 1) ++ ":\nTitle: " ++
    (if info.title == "" then "Unknown" else info.title) ++
    "\nAuthor(s): " ++ joinedOrStr info.authors ", " "Unknown" ++
    "\nDescription: " ++ descSnip info.description 500 "No description" ++
    "\nCategories: " ++ joinedOrStr info.categories ", " "Not specified" ++
    "\nPage Count: " ++ natOrDflt info.pageCount "Not specified" ++
    "\nAverage Rating: " ++ ratOrDflt info.averageRating "Not rated" ++
    "\nPublished: " ++ jsOrStr info.publishedDate "Unknown"

/-- The list of candidate summaries V1 formats (all filtered books). -/
def formatBooksList (books : List Book) : List String :=
  mapWithIndex formatBook 0 books

/-- formatBooksForGemini of V1. -/
def formatBooksForGemini (books : List Book) : String :=
  String.intercalate "\n\n" (formatBooksList books)

/-- The case-insensitive substring title match of the assembler. -/
def titleMatches (recommendation : Rec) (b : Book) : Bool :=
  jsIncludes (strLower b.volumeInfo.title) (strLower recommendation.title)

/-- The enrichment V1 performs on the matched record: thumbnail copied as
is, preview link copied, falsy pageCount/publishedDate/rating filled.  The
source mutates the fields one after another; they are independent, so the
batch update is the same function. -/
def enrich (recommendation : Rec) (b : Book) : Rec :=
  { recommendation with
    imageUrl := b.volumeInfo.imageLinks.bind ImageLinks.thumbnail
    previewLink := b.volumeInfo.previewLink
    pageCount :=
      if truthyNatOpt recommendation.pageCount then recommendation.pageCount
      else b.volumeInfo.pageCount
    publishedDate :=
      if truthyStrOpt recommendation.publishedDate then recommendation.publishedDate
      else b.volumeInfo.publishedDate
    rating :=
      if truthyRatOpt recommendation.rating then recommendation.rating
      else b.volumeInfo.averageRating }

/-- Step 5 of the handler: find the matching record, silently keep the
recommendation unchanged when none matches. -/
def assemble (recommendation : Rec) (books : List Book) : Rec :=
  match books.find? (titleMatches recommendation) with
  | none => recommendation
  | some b => enrich recommendation b

/-- The two external collaborators, as oracles fixed per request: the
extraction model call, the catalog search (on the raw searchQuery) and the
selection model call (on the formatted candidate text). -/
structure Upstream where
  analyze : String → Analysis
  search : Option String → List Book
  recommend : Analysis → String → Rec

/-- The POST /api/chat handler of V1 as a pure function from the request
and the upstream oracles to the response and the outbound call trace. -/
def chat (up : Upstream) (req : ChatRequest) : Resp × List Call :=
  if truthyStrOpt req.message then
    let message := req.message.getD ""
    let history := req.conversationHistory.getD []
    let analysis := up.analyze (fullConversation history message)
    if analysis.readyToRecommend then
      let allBooks := up.search analysis.searchQuery
      let books := filterNovelsOnly allBooks
      if books.length == 0 then
        (Resp.json "question"
          (some ("I couldn\x27t find any " ++ jsOrStr analysis.genre "" ++
            " novels matching your preferences. Could you try adjusting your criteria or choosing a different genre?"))
          none (some (gmtpEcho analysis)), [Call.gemini, Call.books])
      else
        let booksData := formatBooksForGemini books
        let recommendation := up.recommend analysis booksData
        (Resp.json "recommendation" none (some (assemble recommendation books))
          (some (gmtpEcho analysis)), [Call.gemini, Call.books, Call.gemini])
    else
      (Resp.json "question" analysis.question none (some (questionEchoFull analysis)),
        [Call.gemini])
  else (Resp.err 400 "Message is required", [])

/-- One request/response cycle seen from the server process: the handler
closure assigns no module-level binding (all module bindings are const), so
the server state is carried through unchanged. -/
def serve (s : ServerState) (up : Upstream) (req : ChatRequest) :
    (Resp × List Call) × ServerState :=
  (chat up req, s)

end V1

/-! ## V2: the second service in index.js (BookTok variant) -/

namespace V2

/-- Fiction keyword allow-list of V2 filterNovelsOnly. -/
def fictionKeywords : List String :=
  ["fiction", "novel", "romance", "mystery", "thriller", "fantasy",
   "science fiction", "horror"]

/-- Non-fiction keyword block-list of V2 filterNovelsOnly. -/
def nonFictionKeywords : List String :=
  ["non-fiction", "biography", "self-help", "textbook", "history", "guide"]

/-- The joined, lower-cased category text of a record. -/
def catText (book : Book) : String :=
  strLower (String.intercalate " " (book.volumeInfo.categories.getD []))

/-- The per-record predicate of V2 filterNovelsOnly. -/
def keepBook (book : Book) : Bool :=
  fictionKeywords.any (fun k => jsIncludes (catText book) k) &&
  !(nonFictionKeywords.any (fun k => jsIncludes (catText book) k))

/-- filterNovelsOnly of V2. -/
def filterNovelsOnly (books : List Book) : List Book :=
  books.filter keepBook

/-- One candidate summary of V2 formatBooksForGemini. -/
def formatBook (index : Nat) (book : Book) : String :=
  let info := book.volumeInfo
  "Book " ++ toString (index + 1) ++ ":\nTitle: " ++
    (if info.title == "" then "Unknown" else info.title) ++
    "\nAuthor(s): " ++ joinedOrStr info.authors ", " "Unknown" ++
    "\nDescription: " ++ descSnip info.description 600 "No description available" ++
    "\nCategories: " ++ joinedOrStr info.categories ", " "Not specified" ++
    "\nPage Count: " ++ natOrDflt info.pageCount "Unknown" ++
    "\nPublished: " ++ jsOrStr info.publishedDate "Unknown" ++
    "\nRating: " ++ ratOrDflt info.averageRating "Not rated"

/-- The list of candidate summaries V2 formats (all filtered books). -/
def formatBooksList (books : List Book) : List String :=
  mapWithIndex formatBook 0 books

/-- formatBooksForGemini of V2. -/
def formatBooksForGemini (books : List Book) : String :=
  String.intercalate "\n\n" (formatBooksList books)

/-- The case-insensitive substring title match of the assembler. -/
def titleMatches (recommendation : Rec) (b : Book) : Bool :=
  jsIncludes (strLower b.volumeInfo.title) (strLower recommendation.title)

/-- V2 enrichment: thumbnail with http normalized to https via optional
chaining, preview link, falsy fields filled. -/
def enrich (recommendation : Rec) (b : Book) : Rec :=
  { recommendation with
    imageUrl := (b.volumeInfo.imageLinks.bind ImageLinks.thumbnail).map
      (fun u => strReplaceFirst u "http://" "https://")
    previewLink := b.volumeInfo.previewLink
    pageCount :=
      if truthyNatOpt recommendation.pageCount then recommendation.pageCount
      else b.volumeInfo.pageCount
    publishedDate :=
      if truthyStrOpt recommendation.publishedDate then recommendation.publishedDate
      else b.volumeInfo.publishedDate
    rating :=
      if truthyRatOpt recommendation.rating then recommendation.rating
      else b.volumeInfo.averageRating }

/-- Find the matching record, silently keep the recommendation unchanged
when none matches. -/
def assemble (recommendation : Rec) (books : List Book) : Rec :=
  match books.find? (titleMatches recommendation) with
  | none => recommendation
  | some b => enrich recommendation b

/-- The external collaborators of V2, fixed per request. -/
structure Upstream where
  analyze : String → Analysis
  search : Option String → List Book
  recommend : Analysis → String → Rec

/-- The POST /api/chat handler of V2. -/
def chat (up : Upstream) (req : ChatRequest) : Resp × List Call :=
  if truthyStrOpt req.message then
    let message := req.message.getD ""
    let history := req.conversationHistory.getD []
    let analysis := up.analyze (fullConversation history message)
    if analysis.readyToRecommend then
      let allBooks := up.search analysis.searchQuery
      let novels := filterNovelsOnly allBooks
      if novels.length == 0 then
        (Resp.json "question"
          (some ("I couldn\x27t find any good matches for \"" ++ tmplStr analysis.searchQuery ++
            "\". Would you like to try a broader time period, different mood, or change the topic a bit?"))
          none (some (Echo.full analysis)), [Call.gemini, Call.books])
      else
        let booksText := formatBooksForGemini novels
        let recommendation := up.recommend analysis booksText
        (Resp.json "recommendation" none (some (assemble recommendation novels))
          (some (gmtpEcho analysis)), [Call.gemini, Call.books, Call.gemini])
    else
      (Resp.json "question" analysis.question none (some (questionEchoFull analysis)),
        [Call.gemini])
  else (Resp.err 400 "Message is required", [])

/-- One request/response cycle; V2 module state is likewise all const. -/
def serve (s : ServerState) (up : Upstream) (req : ChatRequest) :
    (Resp × List Call) × ServerState :=
  (chat up req, s)

end V2

/-! ## P0: src/unnamed/part_000 (popularity boost, "another" requests) -/

namespace P0

/-- Fiction keyword allow-list of P0 filterNovelsOnly. -/
def fictionKeywords : List String :=
  ["fiction", "novel", "romance", "fantasy", "mystery", "thriller"]

/-- Non-fiction keyword block-list of P0 filterNovelsOnly. -/
def nonFictionKeywords : List String :=
  ["non-fiction", "biography", "self-help"]

/-- The joined, lower-cased category text of a record. -/
def catText (book : Book) : String :=
  strLower (String.intercalate " " (book.volumeInfo.categories.getD []))

/-- The per-record predicate of P0 filterNovelsOnly: fiction keywords, or
the popularity override (averageRating || 0) >= 4 or (ratingsCount || 0) > 800. -/
def keepBook (book : Book) : Bool :=
  (fictionKeywords.any (fun k => jsIncludes (catText book) k) &&
    !(nonFictionKeywords.any (fun k => jsIncludes (catText book) k))) ||
  (decide ((4 : ℚ) ≤ ratOrZero book.volumeInfo.averageRating) ||
    decide (800 < natOrZero book.volumeInfo.ratingsCount))

/-- filterNovelsOnly of P0. -/
def filterNovelsOnly (books : List Book) : List Book :=
  books.filter keepBook

/-- One candidate summary of P0 formatBooksForGemini. -/
def formatBook (index : Nat) (book : Book) : String :=
  let info := book.volumeInfo
  "Book " ++ toString (index + 1) ++ ":\nTitle: " ++
    (if info.title == "" then "?" else info.title) ++
    "\nAuthor: " ++ joinedOrStr info.authors ", " "?" ++
    "\nRating: " ++
    (if truthyRatOpt info.averageRating then
      ratOrDflt info.averageRating "?" ++ " (" ++ toString (natOrZero info.ratingsCount) ++ ")"
    else "?") ++
    "\nPublished: " ++ jsOrStr info.publishedDate "?" ++
    "\nDescription: " ++ descSnip info.description 550 "No desc"

/-- The candidate summaries P0 formats: only the first 15 filtered books. -/
def formatBooksList (books : List Book) : List String :=
  mapWithIndex formatBook 0 (books.take 15)

/-- formatBooksForGemini of P0. -/
def formatBooksForGemini (books : List Book) : String :=
  String.intercalate "\n\n---\n\n" (formatBooksList books)

/-- The case-insensitive substring title match of the assembler. -/
def titleMatches (recommendation : Rec) (b : Book) : Bool :=
  jsIncludes (strLower b.volumeInfo.title) (strLower recommendation.title)

/-- P0 enrichment: largest available cover (extraLarge, large, medium,
thumbnail), normalized to https when present, preview link, nullish fields
filled with ??=. -/
def enrich (recommendation : Rec) (b : Book) : Rec :=
  let links := b.volumeInfo.imageLinks.getD
    { smallThumbnail := none, thumbnail := none, medium := none, large := none,
      extraLarge := none }
  { recommendation with
    imageUrl :=
      (firstTruthyStr [links.extraLarge, links.large, links.medium, links.thumbnail]).map
        (fun u => strReplaceFirst u "http://" "https://")
    previewLink := b.volumeInfo.previewLink
    pageCount := fillIfNull recommendation.pageCount b.volumeInfo.pageCount
    publishedDate := fillIfNull recommendation.publishedDate b.volumeInfo.publishedDate
    rating := fillIfNull recommendation.rating b.volumeInfo.averageRating }

/-- Find the matching record, silently keep the recommendation unchanged
when none matches. -/
def assemble (recommendation : Rec) (books : List Book) : Rec :=
  match books.find? (titleMatches recommendation) with
  | none => recommendation
  | some b => enrich recommendation b

/-- The trigger phrases of the "another one" detection. -/
def anotherPhrases : List String :=
  ["another", "one more", "next", "different one", "something else",
   "not this", "not feeling it", "another suggestion", "more options",
   "try another", "give me another"]

/-- wantsAnother of P0 on the lower-cased, trimmed message. -/
def wantsAnother (lower : String) : Bool :=
  anotherPhrases.any (fun w => jsIncludes lower w) || lower == "more"

/-- The last bot turn carrying a recommendation, searched from the end. -/
def lastBotRec (history : List Turn) : Option Turn :=
  history.reverse.find? (fun m => !m.isUser && (m.type == some "recommendation"))

/-- The data the "another" branch needs; none when the branch guard fails
and the handler falls through to the normal flow. -/
def anotherData (history : List Turn) (message : String) : Option (Rec × Analysis) :=
  let lower := strTrim (strLower message)
  if wantsAnother lower && history.length > 0 then
    match lastBotRec history with
    | some t =>
      match t.recommendation, t.analysis with
      | some r, some a => some (r, a)
      | _, _ => none
    | none => none
  else none

/-- The external collaborators of P0.  search takes the query and the
publication preference; recommend additionally takes the excluded title. -/
structure Upstream where
  analyze : String → Analysis
  search : Option String → Option String → List Book
  recommend : Analysis → String → Option String → Rec

/-- The candidate list of the "another" branch: search on the previous
analysis, filter, then drop every record whose title contains the
previously recommended title (case-insensitively), when that title is
truthy. -/
def anotherCandidates (up : Upstream) (prevRec : Rec) (prevAnalysis : Analysis) :
    List Book :=
  let books := up.search (some (jsOrStr prevAnalysis.searchQuery "fiction"))
    prevAnalysis.preferences.publication
  let novels := filterNovelsOnly books
  if prevRec.title == "" then novels
  else novels.filter
    (fun b => !(jsIncludes (strLower b.volumeInfo.title) (strLower prevRec.title)))

/-- The "another" branch of the handler. -/
def anotherFlow (up : Upstream) (prevRec : Rec) (prevAnalysis : Analysis) :
    Resp × List Call :=
  let novels := anotherCandidates up prevRec prevAnalysis
  if novels.length == 0 then
    (Resp.json "message"
      (some "I\x27ve run out of strong alternatives that match what you asked for earlier. Would you like to change the genre, mood, time period, or add more details?")
      none none, [Call.books])
  else
    let booksText := formatBooksForGemini novels
    let newRec := up.recommend prevAnalysis booksText (some prevRec.title)
    (Resp.json "recommendation" none (some (assemble newRec novels))
      (some (Echo.full prevAnalysis)), [Call.books, Call.gemini])

/-- The normal (non-"another") flow of the handler. -/
def normalFlow (up : Upstream) (history : List Turn) (message : String) :
    Resp × List Call :=
  let analysis := up.analyze (fullConversation history message)
  if analysis.readyToRecommend then
    let books := up.search analysis.searchQuery analysis.preferences.publication
    let novels := filterNovelsOnly books
    if novels.length == 0 then
      (Resp.json "message"
        (some ("Couldn\x27t find matching " ++ jsOrStr analysis.preferences.publication "" ++
          " books for \"" ++ tmplStr analysis.searchQuery ++
          "\". Want to try a different time period or mood?"))
        none none, [Call.gemini, Call.books])
    else
      let booksText := formatBooksForGemini novels
      let recommendation := up.recommend analysis booksText none
      (Resp.json "recommendation" none (some (assemble recommendation novels))
        (some (gmtpEcho analysis)), [Call.gemini, Call.books, Call.gemini])
  else
    (Resp.json "question" analysis.question none (some (questionEchoShort analysis)),
      [Call.gemini])

/-- The POST /api/chat handler of P0. -/
def chat (up : Upstream) (req : ChatRequest) : Resp × List Call :=
  if truthyStrOpt req.message then
    let message := req.message.getD ""
    let history := req.conversationHistory.getD []
    match anotherData history message with
    | some (prevRec, prevAnalysis) => anotherFlow up prevRec prevAnalysis
    | none => normalFlow up history message
  else (Resp.err 400 "Message required", [])

/-- One request/response cycle; P0 module state is likewise all const. -/
def serve (s : ServerState) (up : Upstream) (req : ChatRequest) :
    (Resp × List Call) × ServerState :=
  (chat up req, s)

end P0

/-! ## P1: src/unnamed/part_001 (publication filtering variant) -/

namespace P1

/-- Fiction keyword allow-list of P1 filterNovelsOnly. -/
def fictionKeywords : List String :=
  ["fiction", "novel", "romance", "mystery", "thriller", "fantasy",
   "science fiction", "horror"]

/-- Non-fiction keyword block-list of P1 filterNovelsOnly. -/
def nonFictionKeywords : List String :=
  ["non-fiction", "biography", "self-help", "textbook", "history", "guide"]

/-- The joined, lower-cased category text of a record. -/
def catText (book : Book) : String :=
  strLower (String.intercalate " " (book.volumeInfo.categories.getD []))

/-- The per-record predicate of P1 filterNovelsOnly: fiction keywords, or
the popularity override (averageRating || 0) >= 4.0 or (ratingsCount || 0) > 1000. -/
def keepBook (book : Book) : Bool :=
  (fictionKeywords.any (fun k => jsIncludes (catText book) k) &&
    !(nonFictionKeywords.any (fun k => jsIncludes (catText book) k))) ||
  (decide ((4 : ℚ) ≤ ratOrZero book.volumeInfo.averageRating) ||
    decide (1000 < natOrZero book.volumeInfo.ratingsCount))

/-- filterNovelsOnly of P1. -/
def filterNovelsOnly (books : List Book) : List Book :=
  books.filter keepBook

/-- One candidate summary of P1 formatBooksForGemini. -/
def formatBook (index : Nat) (book : Book) : String :=
  let info := book.volumeInfo
  "Book " ++ toString (index + 1) ++ ":\nTitle: " ++
    (if info.title == "" then "Unknown" else info.title) ++
    "\nAuthor(s): " ++ joinedOrStr info.authors ", " "Unknown" ++
    "\nAvg Rating: " ++
    (if truthyRatOpt info.averageRating then
      ratOrDflt info.averageRating "" ++ "/5 (" ++
        toString (natOrZero info.ratingsCount) ++ " reviews)"
    else "Not rated") ++
    "\nPublished: " ++ jsOrStr info.publishedDate "Unknown" ++
    "\nDescription: " ++ descSnip info.description 600 "No description" ++
    "\nCategories: " ++ joinedOrStr info.categories ", " "Fiction"

/-- The candidate summaries P1 formats: only the first 15 filtered books. -/
def formatBooksList (books : List Book) : List String :=
  mapWithIndex formatBook 0 (books.take 15)

/-- formatBooksForGemini of P1. -/
def formatBooksForGemini (books : List Book) : String :=
  String.intercalate "\n\n---\n\n" (formatBooksList books)

/-- The case-insensitive substring title match of the assembler. -/
def titleMatches (recommendation : Rec) (b : Book) : Bool :=
  jsIncludes (strLower b.volumeInfo.title) (strLower recommendation.title)

/-- P1 enrichment: largest available cover (extraLarge, large, medium,
thumbnail, smallThumbnail) normalized to https when present, preview link,
buy link, nullish fields filled with ??=. -/
def enrich (recommendation : Rec) (b : Book) : Rec :=
  let links := b.volumeInfo.imageLinks.getD
    { smallThumbnail := none, thumbnail := none, medium := none, large := none,
      extraLarge := none }
  { recommendation with
    imageUrl :=
      (firstTruthyStr
        [links.extraLarge, links.large, links.medium, links.thumbnail,
         links.smallThumbnail]).map
        (fun u => strReplaceFirst u "http://" "https://")
    previewLink := b.volumeInfo.previewLink
    buyLink := b.saleInfo.bind SaleInfo.buyLink
    pageCount := fillIfNull recommendation.pageCount b.volumeInfo.pageCount
    publishedDate := fillIfNull recommendation.publishedDate b.volumeInfo.publishedDate
    rating := fillIfNull recommendation.rating b.volumeInfo.averageRating }

/-- Find the matching record, silently keep the recommendation unchanged
when none matches. -/
def assemble (recommendation : Rec) (books : List Book) : Rec :=
  match books.find? (titleMatches recommendation) with
  | none => recommendation
  | some b => enrich recommendation b

/-- The external collaborators of P1; search takes query and publication. -/
structure Upstream where
  analyze : String → Analysis
  search : Option String → Option String → List Book
  recommend : Analysis → String → Rec

/-- The POST /api/chat handler of P1. -/
def chat (up : Upstream) (req : ChatRequest) : Resp × List Call :=
  if truthyStrOpt req.message then
    let message := req.message.getD ""
    let history := req.conversationHistory.getD []
    let analysis := up.analyze (fullConversation history message)
    if analysis.readyToRecommend then
      let allBooks := up.search analysis.searchQuery analysis.preferences.publication
      let novels := filterNovelsOnly allBooks
      if novels.length == 0 then
        (Resp.json "question"
          (some ("No " ++ tmplStr analysis.preferences.publication ++ " " ++
            tmplStr analysis.genre ++ " books found for \"" ++ tmplStr analysis.topic ++
            "\". Try \"popular\" books instead, or different genre/mood?"))
          none (some (Echo.full analysis)), [Call.gemini, Call.books])
      else
        let booksText := formatBooksForGemini novels
        let recommendation := up.recommend analysis booksText
        (Resp.json "recommendation" none (some (assemble recommendation novels))
          (some (gmtPubEcho analysis)), [Call.gemini, Call.books, Call.gemini])
    else
      (Resp.json "question" analysis.question none (some (questionEchoShort analysis)),
        [Call.gemini])
  else (Resp.err 400 "Message required", [])

/-- One request/response cycle; P1 module state is likewise all const. -/
def serve (s : ServerState) (up : Upstream) (req : ChatRequest) :
    (Resp × List Call) × ServerState :=
  (chat up req, s)

end P1

/-! ## Concrete inputs used by counterexamples and witnesses -/

/-- An empty preferences object with a publication preference. -/
def exPrefs : Prefs :=
  { pacing := none, ending := none, complexity := none, dealbreakers := []
    publicationEra := none, booktokVibe := none, publication := some "popular" }

/-- An extraction result that is ready to recommend (genre missing, as the
model may return). -/
def exAnalysisReady : Analysis :=
  { hasBasicInfo := true, genre := none, mood := some "sad"
    topic := some "heartbreak", needsInvestigation := false
    investigationCategory := none, investigationQuestion := none
    preferences := exPrefs, readyToRecommend := true, missingBasicInfo := []
    question := none, searchQuery := some "sad romance heartbreak" }

/-- An extraction result that still needs to ask a question. -/
def exAnalysisAsk : Analysis :=
  { hasBasicInfo := true, genre := some "romance", mood := some "sad"
    topic := some "heartbreak", needsInvestigation := true
    investigationCategory := some "publication"
    investigationQuestion := some "Recent books or older classics?"
    preferences := exPrefs, readyToRecommend := false, missingBasicInfo := []
    question := some "Recent books or older classics?", searchQuery := none }

/-- A minimal selector output. -/
def exDummyRec : Rec :=
  { title := "None", author := "", description := "", reasoning := ""
    pageCount := none, publishedDate := none, rating := none
    imageUrl := none, previewLink := none, buyLink := none }

/-- V1 oracles: extraction ready, catalog empty. -/
def emptySearchV1 : V1.Upstream :=
  { analyze := fun _ => exAnalysisReady, search := fun _ => []
    recommend := fun _ _ => exDummyRec }

/-- V2 oracles: extraction ready, catalog empty. -/
def emptySearchV2 : V2.Upstream :=
  { analyze := fun _ => exAnalysisReady, search := fun _ => []
    recommend := fun _ _ => exDummyRec }

/-- P0 oracles: extraction ready, catalog empty. -/
def emptySearchP0 : P0.Upstream :=
  { analyze := fun _ => exAnalysisReady, search := fun _ _ => []
    recommend := fun _ _ _ => exDummyRec }

/-- P1 oracles: extraction ready, catalog empty. -/
def emptySearchP1 : P1.Upstream :=
  { analyze := fun _ => exAnalysisReady, search := fun _ _ => []
    recommend := fun _ _ => exDummyRec }

/-- V1 oracles whose extraction still wants to ask. -/
def askV1 : V1.Upstream :=
  { analyze := fun _ => exAnalysisAsk, search := fun _ => []
    recommend := fun _ _ => exDummyRec }

/-- A fresh-conversation request. -/
def reqHi : ChatRequest :=
  { message := some "hi", conversationHistory := some [], extraBody := [] }

/-- A request body without a message. -/
def reqNoMsg : ChatRequest :=
  { message := none, conversationHistory := none, extraBody := [] }

/-- Image links offering both a thumbnail and an extraLarge cover, both on
the insecure scheme. -/
def C3links : ImageLinks :=
  { smallThumbnail := none, thumbnail := some "http://small", medium := none
    large := none, extraLarge := some "http://big" }

/-- A catalog record titled Dune with the C3links covers. -/
def C3book : Book :=
  { volumeInfo :=
      { title := "Dune", authors := some ["Frank Herbert"]
        description := some "Sand.", categories := some ["Fiction"]
        pageCount := some 412, publishedDate := some "1965"
        averageRating := some 4, ratingsCount := some 900
        imageLinks := some C3links, previewLink := some "http://prev" }
    saleInfo := none }

/-- A selector output choosing Dune, with the enrichable fields null. -/
def C3rec : Rec :=
  { title := "Dune", author := "Frank Herbert", description := "A desert epic."
    reasoning := "Matches.", pageCount := none, publishedDate := none
    rating := none, imageUrl := none, previewLink := none, buyLink := none }

/-- Image links with only a thumbnail. -/
def duneLinks : ImageLinks :=
  { smallThumbnail := none, thumbnail := some "http://img", medium := none
    large := none, extraLarge := none }

/-- A catalog record titled Dune with thumbnail-only covers. -/
def duneBook : Book :=
  { volumeInfo :=
      { title := "Dune", authors := some ["Frank Herbert"]
        description := some "Desert.", categories := some ["Fiction"]
        pageCount := some 412, publishedDate := some "1965"
        averageRating := some 4, ratingsCount := some 900
        imageLinks := some duneLinks, previewLink := some "http://prev" }
    saleInfo := none }

/-- The selector output picking Dune. -/
def recDune : Rec :=
  { title := "Dune", author := "Frank Herbert", description := "Classic."
    reasoning := "Epic.", pageCount := none, publishedDate := none
    rating := none, imageUrl := none, previewLink := none, buyLink := none }

/-- recDune after P0 enriches it from duneBook. -/
def duneEnriched : Rec :=
  { title := "Dune", author := "Frank Herbert", description := "Classic."
    reasoning := "Epic.", pageCount := some 412, publishedDate := some "1965"
    rating := some 4, imageUrl := some "https://img"
    previewLink := some "http://prev", buyLink := none }

/-- A user turn preceding the recommendation. -/
def C4userTurn : Turn :=
  { isUser := true, text := "recommend sci-fi", type := none
    recommendation := none, analysis := none }

/-- The bot turn that recommended Dune, with its echoed analysis. -/
def C4botTurn : Turn :=
  { isUser := false, text := "How about Dune?", type := some "recommendation"
    recommendation := some recDune, analysis := some exAnalysisReady }

/-- A history whose last bot turn is the Dune recommendation. -/
def C4hist : List Turn := [C4userTurn, C4botTurn]

/-- A follow-up that does NOT match any "another" trigger phrase. -/
def C4req : ChatRequest :=
  { message := some "thanks!", conversationHistory := some C4hist, extraBody := [] }

/-- A follow-up that does match an "another" trigger phrase. -/
def C4reqAnother : ChatRequest :=
  { message := some "another please", conversationHistory := some C4hist
    extraBody := [] }

/-- P0 oracles whose catalog returns the Dune record and whose selector
picks Dune again. -/
def C4up : P0.Upstream :=
  { analyze := fun _ => exAnalysisReady, search := fun _ _ => [duneBook]
    recommend := fun _ _ _ => recDune }

/-- A minimal fiction catalog record. -/
def C6book : Book :=
  { volumeInfo :=
      { title := "T", authors := none, description := none
        categories := some ["Fiction"], pageCount := none
        publishedDate := none, averageRating := none, ratingsCount := none
        imageLinks := none, previewLink := none }
    saleInfo := none }

/-- A concrete server configuration. -/
def st0 : ServerState := { geminiApiKey := some "k1", googleBooksApiKey := none }

/-- A request carrying an extra body property. -/
def r8a : ChatRequest :=
  { message := some "hi", conversationHistory := some []
    extraBody := [("sessionId", "abc")] }

/-- The same request without the extra property. -/
def r8b : ChatRequest :=
  { message := some "hi", conversationHistory := some [], extraBody := [] }

/-- A selector output with all three enrichable fields present and truthy. -/
def C9rec : Rec :=
  { title := "T", author := "A", description := "D", reasoning := "R"
    pageCount := some 321, publishedDate := some "2001", rating := some 5
    imageUrl := none, previewLink := none, buyLink := none }

/-! ## Helper lemmas -/

theorem length_mapWithIndex {α β : Type} (f : Nat → α → β) :
    ∀ (i : Nat) (l : List α), (mapWithIndex f i l).length = l.length
  | _, [] => rfl
  | i, _ :: as => by simp [mapWithIndex, length_mapWithIndex f (i + 1) as]

theorem strTake_len (s : String) (n : Nat) : (strTake s n).length ≤ n := by
  have h : (strTake s n).length = (s.toList.take n).length := rfl
  rw [h, List.length_take]
  exact min_le_left _ _

theorem mem_filter_V1 (books : List Book) (b : Book) :
    b ∈ V1.filterNovelsOnly books ↔
      b ∈ books ∧
        ((∃ k ∈ V1.fictionKeywords, jsIncludes (V1.catText b) k = true) ∧
          ∀ k ∈ V1.nonFictionKeywords, jsIncludes (V1.catText b) k = false) := by
  simp [V1.filterNovelsOnly, V1.keepBook, List.mem_filter, List.any_eq_true,
    Bool.and_eq_true, Bool.not_eq_true']

theorem mem_filter_V2 (books : List Book) (b : Book) :
    b ∈ V2.filterNovelsOnly books ↔
      b ∈ books ∧
        ((∃ k ∈ V2.fictionKeywords, jsIncludes (V2.catText b) k = true) ∧
          ∀ k ∈ V2.nonFictionKeywords, jsIncludes (V2.catText b) k = false) := by
  simp [V2.filterNovelsOnly, V2.keepBook, List.mem_filter, List.any_eq_true,
    Bool.and_eq_true, Bool.not_eq_true']

theorem mem_filter_P0 (books : List Book) (b : Book) :
    b ∈ P0.filterNovelsOnly books ↔
      b ∈ books ∧
        (((∃ k ∈ P0.fictionKeywords, jsIncludes (P0.catText b) k = true) ∧
          ∀ k ∈ P0.nonFictionKeywords, jsIncludes (P0.catText b) k = false) ∨
          ((4 : ℚ) ≤ ratOrZero b.volumeInfo.averageRating ∨
            800 < natOrZero b.volumeInfo.ratingsCount)) := by
  simp [P0.filterNovelsOnly, P0.keepBook, List.mem_filter, List.any_eq_true,
    Bool.and_eq_true, Bool.or_eq_true, Bool.not_eq_true']

theorem mem_filter_P1 (books : List Book) (b : Book) :
    b ∈ P1.filterNovelsOnly books ↔
      b ∈ books ∧
        (((∃ k ∈ P1.fictionKeywords, jsIncludes (P1.catText b) k = true) ∧
          ∀ k ∈ P1.nonFictionKeywords, jsIncludes (P1.catText b) k = false) ∨
          ((4 : ℚ) ≤ ratOrZero b.volumeInfo.averageRating ∨
            1000 < natOrZero b.volumeInfo.ratingsCount)) := by
  simp [P1.filterNovelsOnly, P1.keepBook, List.mem_filter, List.any_eq_true,
    Bool.and_eq_true, Bool.or_eq_true, Bool.not_eq_true']

/-! ## Claims -/

/-- Claim C5 (confirmed): each variant relevance filter is a pure
per-record filter — the output is an order-preserving subsequence of the
input, and a record is kept iff its joined lower-cased category text
contains some fiction keyword and no non-fiction keyword, or (P0 and P1
only) its rating is at least 4 or its ratings count exceeds the
popularity threshold (800 for P0, 1000 for P1). -/
theorem C5_filter_pure_characterization :
    ∀ (books : List Book) (b : Book),
      (List.Sublist (V1.filterNovelsOnly books) books ∧
        (b ∈ V1.filterNovelsOnly books ↔ b ∈ books ∧
          ((∃ k ∈ V1.fictionKeywords, jsIncludes (V1.catText b) k = true) ∧
            ∀ k ∈ V1.nonFictionKeywords, jsIncludes (V1.catText b) k = false))) ∧
      (List.Sublist (V2.filterNovelsOnly books) books ∧
        (b ∈ V2.filterNovelsOnly books ↔ b ∈ books ∧
          ((∃ k ∈ V2.fictionKeywords, jsIncludes (V2.catText b) k = true) ∧
            ∀ k ∈ V2.nonFictionKeywords, jsIncludes (V2.catText b) k = false))) ∧
      (List.Sublist (P0.filterNovelsOnly books) books ∧
        (b ∈ P0.filterNovelsOnly books ↔ b ∈ books ∧
          (((∃ k ∈ P0.fictionKeywords, jsIncludes (P0.catText b) k = true) ∧
            ∀ k ∈ P0.nonFictionKeywords, jsIncludes (P0.catText b) k = false) ∨
            ((4 : ℚ) ≤ ratOrZero b.volumeInfo.averageRating ∨
              800 < natOrZero b.volumeInfo.ratingsCount)))) ∧
      (List.Sublist (P1.filterNovelsOnly books) books ∧
        (b ∈ P1.filterNovelsOnly books ↔ b ∈ books ∧
          (((∃ k ∈ P1.fictionKeywords, jsIncludes (P1.catText b) k = true) ∧
            ∀ k ∈ P1.nonFictionKeywords, jsIncludes (P1.catText b) k = false) ∨
            ((4 : ℚ) ≤ ratOrZero b.volumeInfo.averageRating ∨
              1000 < natOrZero b.volumeInfo.ratingsCount)))) := by
  intro books b
  exact ⟨⟨List.filter_sublist _, mem_filter_V1 books b⟩,
    ⟨List.filter_sublist _, mem_filter_V2 books b⟩,
    ⟨List.filter_sublist _, mem_filter_P0 books b⟩,
    ⟨List.filter_sublist _, mem_filter_P1 books b⟩⟩

/-- Claim C7 (confirmed): a body without a message is answered with a 400
error response in all four variants, before any outbound call is made (the
call trace is empty). -/
theorem C7_missing_message :
    ∀ (u1 : V1.Upstream) (u2 : V2.Upstream) (u3 : P0.Upstream) (u4 : P1.Upstream)
      (req : ChatRequest), req.message = none →
      V1.chat u1 req = (Resp.err 400 "Message is required", []) ∧
      V2.chat u2 req = (Resp.err 400 "Message is required", []) ∧
      P0.chat u3 req = (Resp.err 400 "Message required", []) ∧
      P1.chat u4 req = (Resp.err 400 "Message required", []) := by
  intro u1 u2 u3 u4 req h
  refine ⟨?_, ?_, ?_, ?_⟩ <;>
    simp [V1.chat, V2.chat, P0.chat, P1.chat, h, truthyStrOpt]

/-- Witness for C7 at a concrete message-less request. -/
theorem C7_missing_message_witness :
    V1.chat emptySearchV1 reqNoMsg = (Resp.err 400 "Message is required", []) ∧
    V2.chat emptySearchV2 reqNoMsg = (Resp.err 400 "Message is required", []) ∧
    P0.chat emptySearchP0 reqNoMsg = (Resp.err 400 "Message required", []) ∧
    P1.chat emptySearchP1 reqNoMsg = (Resp.err 400 "Message required", []) :=
  C7_missing_message emptySearchV1 emptySearchV2 emptySearchP0 emptySearchP1 reqNoMsg rfl

/-- Claim C10 (confirmed): omitting conversationHistory is the same as
sending conversationHistory: [], in every variant and for every message and
oracle — in particular it is never an error by itself. -/
theorem C10_default_history :
    ∀ (m : Option String) (e : List (String × String))
      (u1 : V1.Upstream) (u2 : V2.Upstream) (u3 : P0.Upstream) (u4 : P1.Upstream),
      V1.chat u1 { message := m, conversationHistory := none, extraBody := e } =
        V1.chat u1 { message := m, conversationHistory := some [], extraBody := e } ∧
      V2.chat u2 { message := m, conversationHistory := none, extraBody := e } =
        V2.chat u2 { message := m, conversationHistory := some [], extraBody := e } ∧
      P0.chat u3 { message := m, conversationHistory := none, extraBody := e } =
        P0.chat u3 { message := m, conversationHistory := some [], extraBody := e } ∧
      P1.chat u4 { message := m, conversationHistory := none, extraBody := e } =
        P1.chat u4 { message := m, conversationHistory := some [], extraBody := e } := by
  intro m e u1 u2 u3 u4
  exact ⟨rfl, rfl, rfl, rfl⟩

/-- Claim C8 (confirmed): with the upstream responses fixed, every variant
handler is a function of the message and history fields alone — identical
transcripts give identical responses whatever else the body carries — and a
request cycle returns the server state unchanged (the handlers assign no
module-level binding). -/
theorem C8_deterministic_stateless :
    ∀ (s : ServerState) (u1 : V1.Upstream) (u2 : V2.Upstream) (u3 : P0.Upstream)
      (u4 : P1.Upstream) (r1 r2 : ChatRequest),
      r1.message = r2.message → r1.conversationHistory = r2.conversationHistory →
      (V1.serve s u1 r1 = V1.serve s u1 r2 ∧ (V1.serve s u1 r1).2 = s) ∧
      (V2.serve s u2 r1 = V2.serve s u2 r2 ∧ (V2.serve s u2 r1).2 = s) ∧
      (P0.serve s u3 r1 = P0.serve s u3 r2 ∧ (P0.serve s u3 r1).2 = s) ∧
      (P1.serve s u4 r1 = P1.serve s u4 r2 ∧ (P1.serve s u4 r1).2 = s) := by
  intro s u1 u2 u3 u4 r1 r2 hm hh
  obtain ⟨m1, h1, e1⟩ := r1
  obtain ⟨m2, h2, e2⟩ := r2
  simp only at hm hh
  subst hm
  subst hh
  exact ⟨⟨rfl, rfl⟩, ⟨rfl, rfl⟩, ⟨rfl, rfl⟩, ⟨rfl, rfl⟩⟩

/-- Witness for C8: two concrete identical-transcript requests, one with an
extra body property. -/
theorem C8_witness :
    V1.serve st0 emptySearchV1 r8a = V1.serve st0 emptySearchV1 r8b ∧
    (V1.serve st0 emptySearchV1 r8a).2 = st0 :=
  (C8_deterministic_stateless st0 emptySearchV1 emptySearchV2 emptySearchP0
    emptySearchP1 r8a r8b rfl rfl).1

/-- Claim C6 counterexample: in V1 the formatter has no 15-candidate cap —
a filtered list of 16 records yields 16 formatted summaries for the
selector, contradicting the claimed "at most 15" for every variant. -/
theorem C6_counterexample :
    (V1.formatBooksList (List.replicate 16 C6book)).length = 16 ∧
      ¬ ((V1.formatBooksList (List.replicate 16 C6book)).length ≤ 15) := by
  have h : (V1.formatBooksList (List.replicate 16 C6book)).length = 16 := by
    simp [V1.formatBooksList, length_mapWithIndex]
  exact ⟨h, by rw [h]; decide⟩

/-- Claim C6 as amended (proved): P0 and P1 pass at most 15 formatted
candidate summaries to the selector, while the index.js variants V1 and V2
format every filtered candidate (no cap); in every variant the description
inside a summary is truncated to the variant fixed maximum length (or
replaced by the fixed fallback text). -/
theorem C6_amended :
    (∀ books : List Book,
      (P0.formatBooksList books).length ≤ 15 ∧
      (P1.formatBooksList books).length ≤ 15) ∧
    (∀ books : List Book,
      (V1.formatBooksList books).length = books.length ∧
      (V2.formatBooksList books).length = books.length) ∧
    (∀ (d : Option String) (n : Nat) (fb : String),
      (descSnip d n fb).length ≤ n ∨ descSnip d n fb = fb) := by
  refine ⟨fun books => ⟨?_, ?_⟩, fun books => ⟨?_, ?_⟩, fun d n fb => ?_⟩
  · rw [P0.formatBooksList, length_mapWithIndex, List.length_take]
    exact min_le_left _ _
  · rw [P1.formatBooksList, length_mapWithIndex, List.length_take]
    exact min_le_left _ _
  · rw [V1.formatBooksList, length_mapWithIndex]
  · rw [V2.formatBooksList, length_mapWithIndex]
  · cases d with
    | none => exact Or.inr rfl
    | some s =>
      by_cases h : strTake s n == ""
      · exact Or.inr (by simp [descSnip, h])
      · exact Or.inl (by simp only [descSnip, h, if_false]; exact strTake_len s n)

/-- Claim C2 (confirmed): whenever the extraction result has
readyToRecommend = false (and, in P0, the request is not diverted into the
"another" branch, which never runs the extractor), every variant answers
with type "question", the message being exactly the extraction result
question field, after the single extraction call — no catalog search and no
second model call appear in the trace. -/
theorem C2_question_verbatim :
    (∀ (up : V1.Upstream) (req : ChatRequest),
      truthyStrOpt req.message = true →
      (up.analyze (reqConversation req)).readyToRecommend = false →
      V1.chat up req =
        (Resp.json "question" (up.analyze (reqConversation req)).question none
          (some (questionEchoFull (up.analyze (reqConversation req)))),
          [Call.gemini])) ∧
    (∀ (up : V2.Upstream) (req : ChatRequest),
      truthyStrOpt req.message = true →
      (up.analyze (reqConversation req)).readyToRecommend = false →
      V2.chat up req =
        (Resp.json "question" (up.analyze (reqConversation req)).question none
          (some (questionEchoFull (up.analyze (reqConversation req)))),
          [Call.gemini])) ∧
    (∀ (up : P0.Upstream) (req : ChatRequest),
      truthyStrOpt req.message = true →
      P0.anotherData (req.conversationHistory.getD []) (req.message.getD "") = none →
      (up.analyze (reqConversation req)).readyToRecommend = false →
      P0.chat up req =
        (Resp.json "question" (up.analyze (reqConversation req)).question none
          (some (questionEchoShort (up.analyze (reqConversation req)))),
          [Call.gemini])) ∧
    (∀ (up : P1.Upstream) (req : ChatRequest),
      truthyStrOpt req.message = true →
      (up.analyze (reqConversation req)).readyToRecommend = false →
      P1.chat up req =
        (Resp.json "question" (up.analyze (reqConversation req)).question none
          (some (questionEchoShort (up.analyze (reqConversation req)))),
          [Call.gemini])) := by
  refine ⟨fun up req h1 h2 => ?_, fun up req h1 h2 => ?_,
    fun up req h1 hA h2 => ?_, fun up req h1 h2 => ?_⟩
  · simp only [reqConversation] at h2
    simp [V1.chat, reqConversation, h1, h2]
  · simp only [reqConversation] at h2
    simp [V2.chat, reqConversation, h1, h2]
  · simp only [reqConversation] at h2
    simp [P0.chat, P0.normalFlow, reqConversation, h1, hA, h2]
  · simp only [reqConversation] at h2
    simp [P1.chat, reqConversation, h1, h2]

/-- Witness for C2 at a concrete not-ready extraction. -/
theorem C2_question_verbatim_witness :
    V1.chat askV1 reqHi =
      (Resp.json "question" (some "Recent books or older classics?") none
        (some (questionEchoFull exAnalysisAsk)), [Call.gemini]) :=
  C2_question_verbatim.1 askV1 reqHi (by decide) rfl

/-- Claim C1 counterexample: in V1, a request that reaches the search stage
and whose catalog result set becomes empty after the relevance filter is
answered with type "question", not type "message" — the stated property
fails at this concrete input. -/
theorem C1_counterexample :
    truthyStrOpt reqHi.message = true ∧
    (emptySearchV1.analyze (reqConversation reqHi)).readyToRecommend = true ∧
    V1.filterNovelsOnly
      (emptySearchV1.search
        (emptySearchV1.analyze (reqConversation reqHi)).searchQuery) = [] ∧
    respType (V1.chat emptySearchV1 reqHi).1 = some "question" ∧
    respType (V1.chat emptySearchV1 reqHi).1 ≠ some "message" := by
  refine ⟨by decide, rfl, rfl, rfl, ?_⟩
  intro h
  rw [show respType (V1.chat emptySearchV1 reqHi).1 = some "question" from rfl] at h
  simp at h

/-- Claim C1 as amended (proved): when a request reaches the search stage
and the filtered catalog result set is empty, the response type is
"question" in V1, V2 and P1 and "message" in P0, and in no variant is it
"recommendation". -/
theorem C1_amended :
    (∀ (up : V1.Upstream) (req : ChatRequest),
      truthyStrOpt req.message = true →
      (up.analyze (reqConversation req)).readyToRecommend = true →
      V1.filterNovelsOnly
        (up.search (up.analyze (reqConversation req)).searchQuery) = [] →
      respType (V1.chat up req).1 = some "question" ∧
      respType (V1.chat up req).1 ≠ some "recommendation") ∧
    (∀ (up : V2.Upstream) (req : ChatRequest),
      truthyStrOpt req.message = true →
      (up.analyze (reqConversation req)).readyToRecommend = true →
      V2.filterNovelsOnly
        (up.search (up.analyze (reqConversation req)).searchQuery) = [] →
      respType (V2.chat up req).1 = some "question" ∧
      respType (V2.chat up req).1 ≠ some "recommendation") ∧
    (∀ (up : P0.Upstream) (req : ChatRequest),
      truthyStrOpt req.message = true →
      (up.analyze (reqConversation req)).readyToRecommend = true →
      (∀ q p, P0.filterNovelsOnly (up.search q p) = []) →
      respType (P0.chat up req).1 = some "message" ∧
      respType (P0.chat up req).1 ≠ some "recommendation") ∧
    (∀ (up : P1.Upstream) (req : ChatRequest),
      truthyStrOpt req.message = true →
      (up.analyze (reqConversation req)).readyToRecommend = true →
      P1.filterNovelsOnly
        (up.search (up.analyze (reqConversation req)).searchQuery
          (up.analyze (reqConversation req)).preferences.publication) = [] →
      respType (P1.chat up req).1 = some "question" ∧
      respType (P1.chat up req).1 ≠ some "recommendation") := by
  refine ⟨fun up req h1 h2 h3 => ?_, fun up req h1 h2 h3 => ?_,
    fun up req h1 h2 h3 => ?_, fun up req h1 h2 h3 => ?_⟩
  · simp only [reqConversation] at h2 h3
    simp [V1.chat, h1, h2, h3, respType]
  · simp only [reqConversation] at h2 h3
    simp [V2.chat, h1, h2, h3, respType]
  · simp only [reqConversation] at h2
    rcases hA : P0.anotherData (req.conversationHistory.getD []) (req.message.getD "")
      with _ | ⟨prevRec, prevAnalysis⟩
    · simp [P0.chat, P0.normalFlow, h1, hA, h2, h3, respType]
    · simp [P0.chat, P0.anotherFlow, P0.anotherCandidates, h1, hA, h3, respType]
  · simp only [reqConversation] at h2 h3
    simp [P1.chat, h1, h2, h3, respType]

/-- Witness for C1 (amended) at a concrete empty-catalog P0 run. -/
theorem C1_amended_witness :
    respType (P0.chat emptySearchP0 reqHi).1 = some "message" :=
  (C1_amended.2.2.1 emptySearchP0 reqHi (by decide) rfl (fun _ _ => rfl)).1

/-- Claim C4 counterexample: with a history whose last bot turn is a
recommendation titled "Dune", a follow-up message that matches no "another"
trigger phrase ("thanks!") goes through the normal flow, and the next
recommendation is built from a candidate whose title contains "Dune" — the
candidate set was not filtered against the previous title. -/
theorem C4_counterexample :
    C4hist.getLast? = some C4botTurn ∧
    C4botTurn.isUser = false ∧
    C4botTurn.type = some "recommendation" ∧
    C4botTurn.recommendation = some recDune ∧
    (P0.chat C4up C4req).1 =
      Resp.json "recommendation" none (some duneEnriched)
        (some (gmtpEcho exAnalysisReady)) ∧
    jsIncludes (strLower duneEnriched.title) (strLower recDune.title) = true :=
  ⟨rfl, rfl, rfl, rfl, rfl, rfl⟩

/-- Claim C4 as amended (proved): when the message, lower-cased and
trimmed, matches an "another" trigger (so that the branch guard succeeds
and yields the previous recommendation and analysis) and the previous
title is non-empty, the P0 handler runs the "another" flow, and every
record in the candidate set that flow uses is free of the previous title
as a case-insensitive substring. -/
theorem C4_amended :
    ∀ (up : P0.Upstream) (req : ChatRequest) (prevRec : Rec) (prevAnalysis : Analysis),
      truthyStrOpt req.message = true →
      P0.anotherData (req.conversationHistory.getD []) (req.message.getD "") =
        some (prevRec, prevAnalysis) →
      prevRec.title ≠ "" →
      P0.chat up req = P0.anotherFlow up prevRec prevAnalysis ∧
      ∀ b ∈ P0.anotherCandidates up prevRec prevAnalysis,
        jsIncludes (strLower b.volumeInfo.title) (strLower prevRec.title) = false := by
  intro up req prevRec prevAnalysis h1 hA ht
  constructor
  · simp [P0.chat, h1, hA]
  · intro b hb
    have ht' : (prevRec.title == "") = false := by
      simpa using ht
    simp only [P0.anotherCandidates, ht', Bool.false_eq_true, if_false] at hb
    have h2 := (List.mem_filter.mp hb).2
    simpa using h2

/-- Witness for C4 (amended) at the concrete "another please" request. -/
theorem C4_amended_witness :
    P0.chat C4up C4reqAnother = P0.anotherFlow C4up recDune exAnalysisReady :=
  (C4_amended C4up C4reqAnother recDune exAnalysisReady (by decide) rfl
    (by decide)).1

/-- Claim C9 (confirmed): in every variant, enrichment leaves the
selector title, author, description and reasoning unchanged, never
replaces a pageCount, publishedDate or rating supplied as a non-null,
non-zero (non-empty) value, and fills an absent value from the matched
catalog record. -/
theorem C9_enrichment_frame :
    ∀ (r : Rec) (b : Book),
      ((V1.enrich r b).title = r.title ∧ (V1.enrich r b).author = r.author ∧
        (V1.enrich r b).description = r.description ∧
        (V1.enrich r b).reasoning = r.reasoning ∧
        (∀ n : Nat, r.pageCount = some n → n ≠ 0 → (V1.enrich r b).pageCount = some n) ∧
        (∀ d : String, r.publishedDate = some d → d ≠ "" →
          (V1.enrich r b).publishedDate = some d) ∧
        (∀ q : ℚ, r.rating = some q → q ≠ 0 → (V1.enrich r b).rating = some q) ∧
        (r.pageCount = none → (V1.enrich r b).pageCount = b.volumeInfo.pageCount) ∧
        (r.publishedDate = none →
          (V1.enrich r b).publishedDate = b.volumeInfo.publishedDate) ∧
        (r.rating = none → (V1.enrich r b).rating = b.volumeInfo.averageRating)) ∧
      ((V2.enrich r b).title = r.title ∧ (V2.enrich r b).author = r.author ∧
        (V2.enrich r b).description = r.description ∧
        (V2.enrich r b).reasoning = r.reasoning ∧
        (∀ n : Nat, r.pageCount = some n → n ≠ 0 → (V2.enrich r b).pageCount = some n) ∧
        (∀ d : String, r.publishedDate = some d → d ≠ "" →
          (V2.enrich r b).publishedDate = some d) ∧
        (∀ q : ℚ, r.rating = some q → q ≠ 0 → (V2.enrich r b).rating = some q) ∧
        (r.pageCount = none → (V2.enrich r b).pageCount = b.volumeInfo.pageCount) ∧
        (r.publishedDate = none →
          (V2.enrich r b).publishedDate = b.volumeInfo.publishedDate) ∧
        (r.rating = none → (V2.enrich r b).rating = b.volumeInfo.averageRating)) ∧
      ((P0.enrich r b).title = r.title ∧ (P0.enrich r b).author = r.author ∧
        (P0.enrich r b).description = r.description ∧
        (P0.enrich r b).reasoning = r.reasoning ∧
        (∀ n : Nat, r.pageCount = some n → n ≠ 0 → (P0.enrich r b).pageCount = some n) ∧
        (∀ d : String, r.publishedDate = some d → d ≠ "" →
          (P0.enrich r b).publishedDate = some d) ∧
        (∀ q : ℚ, r.rating = some q → q ≠ 0 → (P0.enrich r b).rating = some q) ∧
        (r.pageCount = none → (P0.enrich r b).pageCount = b.volumeInfo.pageCount) ∧
        (r.publishedDate = none →
          (P0.enrich r b).publishedDate = b.volumeInfo.publishedDate) ∧
        (r.rating = none → (P0.enrich r b).rating = b.volumeInfo.averageRating)) ∧
      ((P1.enrich r b).title = r.title ∧ (P1.enrich r b).author = r.author ∧
        (P1.enrich r b).description = r.description ∧
        (P1.enrich r b).reasoning = r.reasoning ∧
        (∀ n : Nat, r.pageCount = some n → n ≠ 0 → (P1.enrich r b).pageCount = some n) ∧
        (∀ d : String, r.publishedDate = some d → d ≠ "" →
          (P1.enrich r b).publishedDate = some d) ∧
        (∀ q : ℚ, r.rating = some q → q ≠ 0 → (P1.enrich r b).rating = some q) ∧
        (r.pageCount = none → (P1.enrich r b).pageCount = b.volumeInfo.pageCount) ∧
        (r.publishedDate = none →
          (P1.enrich r b).publishedDate = b.volumeInfo.publishedDate) ∧
        (r.rating = none → (P1.enrich r b).rating = b.volumeInfo.averageRating)) := by
  intro r b
  refine
    ⟨⟨rfl, rfl, rfl, rfl, fun n h hn => ?_, fun d h hd => ?_, fun q h hq => ?_,
      fun h => ?_, fun h => ?_, fun h => ?_⟩,
     ⟨rfl, rfl, rfl, rfl, fun n h hn => ?_, fun d h hd => ?_, fun q h hq => ?_,
      fun h => ?_, fun h => ?_, fun h => ?_⟩,
     ⟨rfl, rfl, rfl, rfl, fun n h hn => ?_, fun d h hd => ?_, fun q h hq => ?_,
      fun h => ?_, fun h => ?_, fun h => ?_⟩,
     ⟨rfl, rfl, rfl, rfl, fun n h hn => ?_, fun d h hd => ?_, fun q h hq => ?_,
      fun h => ?_, fun h => ?_, fun h => ?_⟩⟩ <;>
    simp_all [V1.enrich, V2.enrich, P0.enrich, P1.enrich, truthyNatOpt,
      truthyStrOpt, truthyRatOpt, fillIfNull]

/-- Witness for C9: a concrete selector output with truthy pageCount 321 is
kept through V1 enrichment. -/
theorem C9_enrichment_frame_witness :
    (V1.enrich C9rec C3book).pageCount = some 321 :=
  (C9_enrichment_frame C9rec C3book).1.2.2.2.2.1 321 rfl (by decide)

/-- Claim C3 counterexample: in V1, for a matched record offering both a
thumbnail and an extraLarge cover (both on http), the assembler copies the
thumbnail unchanged — neither the largest available resolution nor the
https normalization claimed for every variant. -/
theorem C3_counterexample :
    V1.titleMatches C3rec C3book = true ∧
    C3book.volumeInfo.imageLinks = some C3links ∧
    truthyStrOpt C3links.extraLarge = true ∧
    (V1.assemble C3rec [C3book]).imageUrl = some "http://small" ∧
    (V1.assemble C3rec [C3book]).imageUrl ≠
      C3links.extraLarge.map (fun u => strReplaceFirst u "http://" "https://") :=
  ⟨rfl, rfl, by decide, rfl, by decide⟩

/-- Claim C3 as amended (proved): the assembler matches by case-insensitive
substring of the chosen title and fails silently (recommendation returned
unchanged) when no record matches; on a match, P0 and P1 copy the largest
available cover (extraLarge first) normalized to https and yield no cover
when none of their link fields is set, V1 copies the raw thumbnail and V2
the thumbnail normalized to https; every variant copies the preview link
and fills null pageCount, publishedDate and rating from the record. -/
theorem C3_amended :
    (∀ (r : Rec) (books : List Book),
      ((∀ b ∈ books, V1.titleMatches r b = false) → V1.assemble r books = r) ∧
      ((∀ b ∈ books, V2.titleMatches r b = false) → V2.assemble r books = r) ∧
      ((∀ b ∈ books, P0.titleMatches r b = false) → P0.assemble r books = r) ∧
      ((∀ b ∈ books, P1.titleMatches r b = false) → P1.assemble r books = r)) ∧
    (∀ (r : Rec) (books : List Book) (b0 : Book),
      (books.find? (V1.titleMatches r) = some b0 →
        V1.assemble r books = V1.enrich r b0) ∧
      (books.find? (V2.titleMatches r) = some b0 →
        V2.assemble r books = V2.enrich r b0) ∧
      (books.find? (P0.titleMatches r) = some b0 →
        P0.assemble r books = P0.enrich r b0) ∧
      (books.find? (P1.titleMatches r) = some b0 →
        P1.assemble r books = P1.enrich r b0)) ∧
    (∀ (r : Rec) (b : Book) (l : ImageLinks),
      b.volumeInfo.imageLinks = some l →
      (truthyStrOpt l.extraLarge = true →
        (P0.enrich r b).imageUrl =
          l.extraLarge.map (fun u => strReplaceFirst u "http://" "https://") ∧
        (P1.enrich r b).imageUrl =
          l.extraLarge.map (fun u => strReplaceFirst u "http://" "https://")) ∧
      (l.extraLarge = none → l.large = none → l.medium = none → l.thumbnail = none →
        (P0.enrich r b).imageUrl = none) ∧
      ((V1.enrich r b).imageUrl = l.thumbnail ∧
        (V2.enrich r b).imageUrl =
          l.thumbnail.map (fun u => strReplaceFirst u "http://" "https://"))) ∧
    (∀ (r : Rec) (b : Book),
      (V1.enrich r b).previewLink = b.volumeInfo.previewLink ∧
      (V2.enrich r b).previewLink = b.volumeInfo.previewLink ∧
      (P0.enrich r b).previewLink = b.volumeInfo.previewLink ∧
      (P1.enrich r b).previewLink = b.volumeInfo.previewLink) ∧
    (∀ (r : Rec) (b : Book),
      r.pageCount = none → r.publishedDate = none → r.rating = none →
      ((V1.enrich r b).pageCount = b.volumeInfo.pageCount ∧
        (V1.enrich r b).publishedDate = b.volumeInfo.publishedDate ∧
        (V1.enrich r b).rating = b.volumeInfo.averageRating) ∧
      ((V2.enrich r b).pageCount = b.volumeInfo.pageCount ∧
        (V2.enrich r b).publishedDate = b.volumeInfo.publishedDate ∧
        (V2.enrich r b).rating = b.volumeInfo.averageRating) ∧
      ((P0.enrich r b).pageCount = b.volumeInfo.pageCount ∧
        (P0.enrich r b).publishedDate = b.volumeInfo.publishedDate ∧
        (P0.enrich r b).rating = b.volumeInfo.averageRating) ∧
      ((P1.enrich r b).pageCount = b.volumeInfo.pageCount ∧
        (P1.enrich r b).publishedDate = b.volumeInfo.publishedDate ∧
        (P1.enrich r b).rating = b.volumeInfo.averageRating)) := by
  refine ⟨fun r books => ⟨fun h => ?_, fun h => ?_, fun h => ?_, fun h => ?_⟩,
    fun r books b0 => ⟨fun h => ?_, fun h => ?_, fun h => ?_, fun h => ?_⟩,
    fun r b l hL => ⟨fun hEL => ?_, fun h1 h2 h3 h4 => ?_, ⟨?_, ?_⟩⟩,
    fun r b => ⟨rfl, rfl, rfl, rfl⟩,
    fun r b h1 h2 h3 => ?_⟩
  · have hn : books.find? (V1.titleMatches r) = none :=
      List.find?_eq_none.mpr (fun x hx => by simp [h x hx])
    simp [V1.assemble, hn]
  · have hn : books.find? (V2.titleMatches r) = none :=
      List.find?_eq_none.mpr (fun x hx => by simp [h x hx])
    simp [V2.assemble, hn]
  · have hn : books.find? (P0.titleMatches r) = none :=
      List.find?_eq_none.mpr (fun x hx => by simp [h x hx])
    simp [P0.assemble, hn]
  · have hn : books.find? (P1.titleMatches r) = none :=
      List.find?_eq_none.mpr (fun x hx => by simp [h x hx])
    simp [P1.assemble, hn]
  · simp [V1.assemble, h]
  · simp [V2.assemble, h]
  · simp [P0.assemble, h]
  · simp [P1.assemble, h]
  · rcases hx : l.extraLarge with _ | s
    · rw [hx] at hEL
      simp [truthyStrOpt] at hEL
    · have hs : (s == "") = false := by
        rw [hx] at hEL
        simpa [truthyStrOpt] using hEL
      constructor
      · simp [P0.enrich, hL, hx, firstTruthyStr, hs]
      · simp [P1.enrich, hL, hx, firstTruthyStr, hs]
  · simp [P0.enrich, hL, h1, h2, h3, h4, firstTruthyStr]
  · simp [V1.enrich, hL]
  · simp [V2.enrich, hL]
  · refine ⟨⟨?_, ?_, ?_⟩, ⟨?_, ?_, ?_⟩, ⟨?_, ?_, ?_⟩, ⟨?_, ?_, ?_⟩⟩ <;>
      simp [V1.enrich, V2.enrich, P0.enrich, P1.enrich, truthyNatOpt,
        truthyStrOpt, truthyRatOpt, fillIfNull, h1, h2, h3]

/-- Witness for C3 (amended): P0 enrichment at the concrete Dune record
picks the extraLarge cover normalized to https. -/
theorem C3_amended_witness :
    (P0.enrich C3rec C3book).imageUrl = some "https://big" :=
  ((C3_amended.2.2.1 C3rec C3book C3links rfl).1 (by decide)).1
